import Mathlib

/-!
Verification of the Weaviate BBC-collection setup scripts
(`setup_collection.py` and `weaviate_server.py`).

The two scripts are thin orchestration over the Weaviate client API:
a readiness-polling loop (`wait_for_weaviate`), a create-or-replace
schema step (`create_bbc_collection`), a batch loader
(`load_data_to_collection`), a `main` driver with try/except/finally,
and a context manager (`suppress_subprocess_output`) that monkey-patches
`subprocess.Popen` and restores it on exit.

We embed each piece shallowly: the remote collection store is a list of
name/schema pairs, the dataset is an `Option (List Item)` (`none` models
a `FileNotFoundError` from `joblib.load`), the batch session that may
raise mid-run is modelled by an optional raise point, wall-clock time in
the readiness loop is an integer clock driven by an abstract sequence of
probe outcomes, and `main` is a function of an environment recording
which external operations succeed.
-/

set_option autoImplicit false

namespace BBCSetup

/-! ### Schema data model (`setup_collection.py`, `create_bbc_collection`) -/

/-- Field types used by the schema: `DataType.TEXT` and `DataType.INT`
in the source. -/
inductive DataType where
  | text
  | int
deriving DecidableEq, Repr

/-- One `Property(name=..., data_type=...)` argument of
`client.collections.create`. -/
structure SchemaProperty where
  name : String
  dataType : DataType
deriving DecidableEq, Repr

/-- Vectorizer configuration: the source passes
`Configure.Vectorizer.text2vec_transformers(vectorize_collection_name=False)`. -/
structure VectorizerConfig where
  vectorizeCollectionName : Bool
deriving DecidableEq, Repr

/-- Vector index configuration: the source passes
`Configure.VectorIndex.hnsw()`. -/
inductive VectorIndexConfig where
  | hnsw
deriving DecidableEq, Repr

/-- The schema of one collection as submitted to `client.collections.create`. -/
structure CollectionSchema where
  properties : List SchemaProperty
  vectorizer : VectorizerConfig
  vectorIndex : VectorIndexConfig
deriving DecidableEq, Repr

/-- The remote collection store: the collections currently existing on the
server, each a (name, schema) pair. -/
abbrev Store : Type := List (String × CollectionSchema)

/-- `client.collections.exists(name)`. -/
def colExists (s : Store) (name : String) : Bool :=
  List.any s (fun p => p.1 == name)

/-- `client.collections.delete(name)`: the collection of that name is removed
from the server. -/
def colDelete (s : Store) (name : String) : Store :=
  List.filter (fun p => p.1 != name) s

/-- `client.collections.create(name, ...)`: a new collection with the given
schema is added to the server. -/
def colCreate (s : Store) (name : String) (schema : CollectionSchema) : Store :=
  s ++ [(name, schema)]

/-- The seven `Property` arguments of the `create` call, in source order. -/
def bbcProperties : List SchemaProperty :=
  [ ⟨"article_content", DataType.text⟩,
    ⟨"chunk", DataType.text⟩,
    ⟨"chunk_index", DataType.int⟩,
    ⟨"description", DataType.text⟩,
    ⟨"link", DataType.text⟩,
    ⟨"pubDate", DataType.text⟩,
    ⟨"title", DataType.text⟩ ]

/-- The full schema passed to `client.collections.create` in
`create_bbc_collection`. -/
def bbcSchema : CollectionSchema :=
  { properties := bbcProperties,
    vectorizer := ⟨false⟩,
    vectorIndex := VectorIndexConfig.hnsw }

/-- `create_bbc_collection(client)`: if a collection named
`"bbc_collection"` exists it is deleted, then a fresh one is created with
`bbcSchema`. Returns the updated store. -/
def create_bbc_collection (s : Store) : Store :=
  let s1 := if colExists s "bbc_collection" then colDelete s "bbc_collection" else s
  colCreate s1 "bbc_collection" bbcSchema

/-- The collections of store `s` named `name`. -/
def named (s : Store) (name : String) : Store :=
  List.filter (fun p => p.1 == name) s

theorem named_colDelete (s : Store) (name : String) :
    named (colDelete s name) name = [] := by
  unfold named colDelete
  rw [List.filter_filter, List.filter_eq_nil_iff]
  intro a _
  cases h : a.1 == name <;> simp [bne, h]

theorem named_eq_nil_of_not_exists (s : Store) (name : String)
    (h : colExists s name = false) : named s name = [] := by
  unfold named
  unfold colExists at h
  rw [List.filter_eq_nil_iff]
  intro a ha
  rw [List.any_eq_false] at h
  exact h a ha

theorem named_create_bbc (s : Store) :
    named (create_bbc_collection s) "bbc_collection" =
      [("bbc_collection", bbcSchema)] := by
  unfold create_bbc_collection colCreate
  by_cases h : colExists s "bbc_collection" = true
  · simp only [h, if_true]
    show named (colDelete s "bbc_collection" ++ [("bbc_collection", bbcSchema)]) _ = _
    unfold named
    rw [List.filter_append]
    have := named_colDelete s "bbc_collection"
    unfold named at this
    rw [this]
    rfl
  · simp only [Bool.not_eq_true] at h
    simp only [h, Bool.false_eq_true, if_false]
    show named (s ++ [("bbc_collection", bbcSchema)]) _ = _
    unfold named
    rw [List.filter_append]
    have := named_eq_nil_of_not_exists s "bbc_collection" h
    unfold named at this
    rw [this]
    rfl

/-- C1: `create_bbc_collection` is idempotent-by-replacement: after one call,
and equally after two successive calls, exactly one collection named
`"bbc_collection"` exists, and its schema is exactly the new seven-field
schema (never a merge with a pre-existing one), because any pre-existing
collection of that name is deleted before creation. -/
theorem create_bbc_collection_idempotent_by_replacement (s : Store) :
    named (create_bbc_collection s) "bbc_collection" =
        [("bbc_collection", bbcSchema)] ∧
    named (create_bbc_collection (create_bbc_collection s)) "bbc_collection" =
        [("bbc_collection", bbcSchema)] ∧
    bbcSchema.properties = bbcProperties ∧ bbcProperties.length = 7 :=
  ⟨named_create_bbc s, named_create_bbc _, rfl, rfl⟩

/-! ### Batch loader (`setup_collection.py`, `load_data_to_collection`) -/

/-- One record of the dataset `data/bbc_data.joblib`: a mapping from field
name to value, where any field may be absent (`item.get(key, default)` in
the source). -/
structure Item where
  article_content : Option String
  chunk : Option String
  chunk_index : Option Int
  description : Option String
  link : Option String
  pubDate : Option String
  title : Option String
deriving DecidableEq, Repr

/-- The `data_object` dict built for one item (source lines 80-88): every
field present, with type-appropriate defaults. -/
structure DataObject where
  article_content : String
  chunk : String
  chunk_index : Int
  description : String
  link : String
  pubDate : String
  title : String
deriving DecidableEq, Repr

/-- Normalization of one item into a `data_object`:
`item.get("article_content", "")`, ..., `item.get("chunk_index", 0)`. -/
def normalize (item : Item) : DataObject :=
  { article_content := item.article_content.getD "",
    chunk := item.chunk.getD "",
    chunk_index := item.chunk_index.getD 0,
    description := item.description.getD "",
    link := item.link.getD "",
    pubDate := item.pubDate.getD "",
    title := item.title.getD "" }

/-- A progress message printed by the loader: either the intermediate
`Inserted i+1/n objects...` report or the final
`Successfully loaded n objects` report. -/
inductive Report where
  | progress (submitted total : Nat)
  | complete (total : Nat)
deriving DecidableEq, Repr

/-- The intermediate reports emitted while inserting the first `n` objects of
a run of `total` objects: one report after object `i+1` exactly when
`(i + 1) % 100 == 0` (source line 96). -/
def progressReports (n total : Nat) : List Report :=
  (List.range n).filterMap
    (fun i => if (i + 1) % 100 = 0 then some (Report.progress (i + 1) total) else none)

/-- Observable outcome of one `load_data_to_collection` call: the returned
boolean, whether a batch session was opened, the objects submitted via
`batch.add_object` in order, and the progress reports printed. -/
structure LoadResult where
  success : Bool
  batchOpened : Bool
  submitted : List DataObject
  reports : List Report
deriving DecidableEq, Repr

/-- `load_data_to_collection(client, collection)`.

`dataset` is the result of `joblib.load('data/bbc_data.joblib')`: `none`
models `FileNotFoundError` (the file is absent), in which case the
function returns `False` before opening a batch session. `raiseAt = some k`
models the batch context raising an exception after `k` objects were
submitted (`k ≤ n`; a `k` past the end means no exception occurred); the
`except` branch then returns `False`. Otherwise every object is submitted
in order and the function returns `True`. -/
def load_data_to_collection (dataset : Option (List Item)) (raiseAt : Option Nat) :
    LoadResult :=
  match dataset with
  | none => { success := false, batchOpened := false, submitted := [], reports := [] }
  | some bbc_data =>
    let data_objects := bbc_data.map normalize
    let n := data_objects.length
    match raiseAt with
    | some k =>
      if k ≤ n then
        { success := false, batchOpened := true,
          submitted := data_objects.take k, reports := progressReports k n }
      else
        { success := true, batchOpened := true,
          submitted := data_objects,
          reports := progressReports n n ++ [Report.complete n] }
    | none =>
        { success := true, batchOpened := true,
          submitted := data_objects,
          reports := progressReports n n ++ [Report.complete n] }

/-- C2: for every non-empty input record sequence, a successful load submits
exactly one object per input record, iterating the input once in order, so
the object count afterwards equals the input length. -/
theorem load_success_submits_one_per_record
    (items : List Item) (raiseAt : Option Nat)
    (hne : items ≠ [])
    (hs : (load_data_to_collection (some items) raiseAt).success = true) :
    (load_data_to_collection (some items) raiseAt).submitted = items.map normalize ∧
    (load_data_to_collection (some items) raiseAt).submitted.length = items.length := by
  unfold load_data_to_collection at *
  match raiseAt with
  | none => simp
  | some k =>
      simp only at hs ⊢
      split at hs
      · simp at hs
      · rename_i hk
        have hk2 : ¬k ≤ items.length := by simpa using hk
        simp [hk2]

/-- An item with every field absent. -/
def emptyItem : Item :=
  { article_content := none, chunk := none, chunk_index := none,
    description := none, link := none, pubDate := none, title := none }

theorem load_success_submits_one_per_record_witness :
    (load_data_to_collection (some [emptyItem]) none).submitted =
        [emptyItem].map normalize ∧
    (load_data_to_collection (some [emptyItem]) none).submitted.length =
        [emptyItem].length :=
  load_success_submits_one_per_record [emptyItem] none (by simp) (by rfl)

/-- C4: if the dataset file is absent (`joblib.load` raises
`FileNotFoundError`), the loader returns failure before any insertion
attempt: no batch session is opened, no object is submitted, and no report
is printed. -/
theorem load_missing_file_inserts_nothing (raiseAt : Option Nat) :
    load_data_to_collection none raiseAt =
      { success := false, batchOpened := false, submitted := [], reports := [] } :=
  rfl

/-- C5: normalization substitutes a type-appropriate zero value for every
absent field: the empty string for the six text fields and integer 0 for
`chunk_index`; a missing field is never an error (`normalize` is total). -/
theorem normalize_defaults_missing_fields (item : Item) :
    (item.article_content = none → (normalize item).article_content = "") ∧
    (item.chunk = none → (normalize item).chunk = "") ∧
    (item.chunk_index = none → (normalize item).chunk_index = 0) ∧
    (item.description = none → (normalize item).description = "") ∧
    (item.link = none → (normalize item).link = "") ∧
    (item.pubDate = none → (normalize item).pubDate = "") ∧
    (item.title = none → (normalize item).title = "") := by
  refine ⟨?_, ?_, ?_, ?_, ?_, ?_, ?_⟩ <;> (intro h; simp [normalize, h])

theorem normalize_defaults_missing_fields_witness :
    (normalize emptyItem).article_content = "" ∧
    (normalize emptyItem).chunk = "" ∧
    (normalize emptyItem).chunk_index = 0 ∧
    (normalize emptyItem).description = "" ∧
    (normalize emptyItem).link = "" ∧
    (normalize emptyItem).pubDate = "" ∧
    (normalize emptyItem).title = "" := by
  have h := normalize_defaults_missing_fields emptyItem
  exact ⟨h.1 rfl, h.2.1 rfl, h.2.2.1 rfl, h.2.2.2.1 rfl,
    h.2.2.2.2.1 rfl, h.2.2.2.2.2.1 rfl, h.2.2.2.2.2.2 rfl⟩

theorem mem_progressReports (n total m : Nat) :
    Report.progress m total ∈ progressReports n total ↔
      0 < m ∧ m % 100 = 0 ∧ m ≤ n := by
  unfold progressReports
  rw [List.mem_filterMap]
  constructor
  · rintro ⟨i, hi, hif⟩
    rw [List.mem_range] at hi
    split at hif
    · rename_i hmod
      rw [Option.some_inj] at hif
      cases hif
      exact ⟨Nat.succ_pos i, hmod, hi⟩
    · exact absurd hif (by simp)
  · rintro ⟨hpos, hmod, hle⟩
    refine ⟨m - 1, ?_, ?_⟩
    · rw [List.mem_range]; omega
    · have hm : m - 1 + 1 = m := by omega
      rw [hm, if_pos hmod]

set_option maxRecDepth 8192 in
/-- C6: for 250 input records, a successful load emits exactly two
intermediate progress reports — after the 100th and the 200th submitted
record — before the final completion report; in general an intermediate
report is emitted exactly when the count of records submitted so far is a
positive multiple of 100. -/
theorem load_progress_every_100 :
    (load_data_to_collection (some (List.replicate 250 emptyItem)) none).reports =
      [Report.progress 100 250, Report.progress 200 250, Report.complete 250] ∧
    ∀ (items : List Item) (m : Nat),
      (Report.progress m items.length ∈
          (load_data_to_collection (some items) none).reports ↔
        0 < m ∧ m % 100 = 0 ∧ m ≤ items.length) := by
  constructor
  · rfl
  · intro items m
    simp [load_data_to_collection, mem_progressReports]

set_option maxRecDepth 8192 in
theorem load_progress_every_100_witness :
    Report.progress 100 (List.replicate 250 emptyItem).length ∈
      (load_data_to_collection (some (List.replicate 250 emptyItem)) none).reports :=
  (load_progress_every_100.2 (List.replicate 250 emptyItem) 100).mpr
    ⟨by norm_num, by norm_num, by rw [List.length_replicate]; norm_num⟩

/-! ### Readiness probe (`wait_for_weaviate`, both files) -/

/-- The per-request timeout passed to `requests.get` (5 seconds). -/
def requestTimeout : Nat := 5

/-- The fixed interval of `time.sleep(2)` between attempts. -/
def sleepInterval : Nat := 2

/-- The outcome of one health request: how long the request took
(seconds; at most `requestTimeout` in any real run) and whether it came
back with HTTP status 200. A request that raises a
`RequestException` is a not-ok probe. -/
structure Probe where
  duration : Nat
  ok : Bool

/-- Observable outcome of one `wait_for_weaviate` call: the returned
boolean, the elapsed wall-clock time (seconds since the call) at the
moment of return, and the number of health requests issued. -/
structure WaitResult where
  ready : Bool
  returnTime : Int
  attempts : Nat
deriving DecidableEq, Repr

/-- The `while time.time() - start_time < timeout` loop. `probes i` is the
outcome of the `i`-th health request; `elapsed` is the wall-clock time
consumed so far. On a 200 response the loop returns `True` at once; on any
other outcome it prints, sleeps `sleepInterval`, and re-checks the clock. -/
def waitLoop (probes : Nat → Probe) (timeout : Int) (attempts : Nat) (elapsed : Int) :
    WaitResult :=
  if h : elapsed < timeout then
    let p := probes attempts
    if p.ok then
      { ready := true, returnTime := elapsed + p.duration, attempts := attempts + 1 }
    else
      waitLoop probes timeout (attempts + 1) (elapsed + p.duration + sleepInterval)
  else
    { ready := false, returnTime := elapsed, attempts := attempts }
termination_by (timeout - elapsed).toNat
decreasing_by
  have hd : (0 : Int) ≤ (probes attempts).duration := Int.ofNat_nonneg _
  simp only [sleepInterval]
  omega

/-- `wait_for_weaviate(url, timeout)`: the loop started with zero elapsed
time and zero attempts. -/
def wait_for_weaviate (probes : Nat → Probe) (timeout : Int) : WaitResult :=
  waitLoop probes timeout 0 0

theorem waitLoop_return_bound (probes : Nat → Probe) (timeout : Int)
    (hd : ∀ i, (probes i).duration ≤ requestTimeout) :
    ∀ (n attempts : Nat) (elapsed : Int),
      (timeout - elapsed).toNat ≤ n →
      elapsed ≤ timeout + (requestTimeout : Int) + (sleepInterval : Int) →
      (waitLoop probes timeout attempts elapsed).returnTime ≤
          timeout + (requestTimeout : Int) + (sleepInterval : Int) ∧
      ((waitLoop probes timeout attempts elapsed).ready = false →
        timeout ≤ (waitLoop probes timeout attempts elapsed).returnTime) := by
  have hr : (requestTimeout : Int) = 5 := rfl
  have hsl : (sleepInterval : Int) = 2 := rfl
  intro n
  induction n with
  | zero =>
      intro attempts elapsed hn he
      have hlt : ¬elapsed < timeout := by omega
      rw [waitLoop.eq_def]
      simp only [hlt, dite_false]
      exact ⟨he, fun _ => by omega⟩
  | succ n ih =>
      intro attempts elapsed hn he
      rw [waitLoop.eq_def]
      by_cases hlt : elapsed < timeout
      · have hdur : (probes attempts).duration ≤ requestTimeout := hd attempts
        have hr5 : requestTimeout = 5 := rfl
        simp only [hlt, dite_true]
        by_cases hok : (probes attempts).ok
        · simp only [hok, if_true]
          refine ⟨?_, fun hcon => by simp at hcon⟩
          show elapsed + ((probes attempts).duration : Int) ≤
            timeout + (requestTimeout : Int) + (sleepInterval : Int)
          omega
        · simp only [hok, Bool.false_eq_true, if_false]
          exact ih (attempts + 1) (elapsed + (probes attempts).duration + sleepInterval)
            (by omega) (by omega)
      · simp only [hlt, dite_false]
        exact ⟨he, fun _ => by omega⟩

/-- A probe trace on which the wall-clock bound `timeout + request_timeout`
is exceeded: two instantaneous failed requests, then failed requests that
each take the full 5-second request timeout. -/
def cProbes : Nat → Probe :=
  fun i => if i < 2 then ⟨0, false⟩ else ⟨requestTimeout, false⟩

theorem cProbes_duration_le (i : Nat) : (cProbes i).duration ≤ requestTimeout := by
  unfold cProbes
  split <;> simp

theorem wait_for_weaviate_cProbes_eval :
    wait_for_weaviate cProbes 5 = { ready := false, returnTime := 11, attempts := 3 } := by
  unfold wait_for_weaviate
  rw [waitLoop.eq_def]; norm_num [cProbes, sleepInterval, requestTimeout]
  rw [waitLoop.eq_def]; norm_num [cProbes, sleepInterval, requestTimeout]
  rw [waitLoop.eq_def]; norm_num [cProbes, sleepInterval, requestTimeout]
  rw [waitLoop.eq_def]; norm_num

/-- C3 counterexample: with per-request durations all within the 5-second
request timeout (see `cProbes_duration_le`) and `timeout = 5`, the call
returns only at elapsed time 11 > 5 + 5 = timeout + request_timeout, because
the final failed attempt also incurs the 2-second sleep before the clock is
re-checked. -/
theorem wait_exceeds_timeout_plus_request_timeout :
    (wait_for_weaviate cProbes 5).returnTime = 11 ∧
    ¬((wait_for_weaviate cProbes 5).returnTime ≤ 5 + (requestTimeout : Int)) := by
  rw [wait_for_weaviate_cProbes_eval]
  norm_num [requestTimeout]

/-- C3 (amended): for every nonnegative timeout and every probe trace whose
request durations respect the 5-second per-request bound,
`wait_for_weaviate` returns within `timeout + request_timeout +
sleep_interval` wall-clock time, and when it returns `False` the elapsed
time has reached `timeout`. (It returns `True` at the first 200 response
without further sleeping.) -/
theorem wait_returns_within_timeout_request_sleep
    (probes : Nat → Probe) (timeout : Int)
    (ht : 0 ≤ timeout)
    (hd : ∀ i, (probes i).duration ≤ requestTimeout) :
    (wait_for_weaviate probes timeout).returnTime ≤
        timeout + (requestTimeout : Int) + (sleepInterval : Int) ∧
    ((wait_for_weaviate probes timeout).ready = false →
      timeout ≤ (wait_for_weaviate probes timeout).returnTime) := by
  have hr : (requestTimeout : Int) = 5 := rfl
  have hsl : (sleepInterval : Int) = 2 := rfl
  exact waitLoop_return_bound probes timeout hd (timeout - 0).toNat 0 0
    (le_refl _) (by omega)

theorem wait_returns_within_timeout_request_sleep_witness :
    (wait_for_weaviate (fun _ => ⟨0, true⟩) 60).returnTime ≤
        60 + (requestTimeout : Int) + (sleepInterval : Int) :=
  (wait_returns_within_timeout_request_sleep (fun _ => ⟨0, true⟩) 60
    (by norm_num) (fun i => by simp [requestTimeout])).1

/-- C9: for every timeout less than or equal to 0, `wait_for_weaviate`
returns `False` immediately — at elapsed time 0, with zero health requests
issued — because the elapsed-time guard is checked before the first
attempt. -/
theorem wait_nonpositive_timeout_zero_attempts
    (probes : Nat → Probe) (timeout : Int) (ht : timeout ≤ 0) :
    wait_for_weaviate probes timeout =
      { ready := false, returnTime := 0, attempts := 0 } := by
  unfold wait_for_weaviate
  rw [waitLoop.eq_def]
  have hlt : ¬(0 : Int) < timeout := by omega
  simp [hlt]

theorem wait_nonpositive_timeout_zero_attempts_witness :
    wait_for_weaviate (fun _ => ⟨0, true⟩) (-3) =
      { ready := false, returnTime := 0, attempts := 0 } :=
  wait_nonpositive_timeout_zero_attempts (fun _ => ⟨0, true⟩) (-3) (by norm_num)

/-! ### The `main` driver (`setup_collection.py`, lines 106-142) -/

/-- Environment of one `main` run: the probe trace the readiness loop sees,
whether `weaviate.connect_to_local` succeeds (raises otherwise), whether the
collection create/delete calls succeed (raise otherwise), and the inputs of
`load_data_to_collection`. -/
structure Env where
  probes : Nat → Probe
  connectOk : Bool
  createOk : Bool
  dataset : Option (List Item)
  raiseAt : Option Nat

/-- Observable outcome of one `main` run: the process exit code, whether a
client handle was successfully acquired, how many times `client.close()`
ran, and whether a human-readable error message was printed before a
failure exit. -/
structure MainResult where
  exitCode : Nat
  connected : Bool
  closeCount : Nat
  errorLogged : Bool
deriving DecidableEq, Repr

/-- `main()`. The readiness gate runs with the default `timeout=60`. If it
fails, `sys.exit(1)` fires before any connection attempt. If
`connect_to_local` raises, the `except` branch logs and exits 1; `client`
is not in `locals()`, so the `finally` clause closes nothing. If
`create_bbc_collection` raises, the `except` branch logs and exits 1 and
the `finally` clause closes the client. If loading returns `False`, a
message is printed and `sys.exit(1)` fires (a `SystemExit` the
`except Exception` clause does not catch), with the `finally` clause
closing the client. On full success `main` returns normally (exit code 0)
after the `finally` clause closes the client. -/
def main (env : Env) : MainResult :=
  if (wait_for_weaviate env.probes 60).ready = false then
    { exitCode := 1, connected := false, closeCount := 0, errorLogged := true }
  else if env.connectOk = false then
    { exitCode := 1, connected := false, closeCount := 0, errorLogged := true }
  else if env.createOk = false then
    { exitCode := 1, connected := true, closeCount := 1, errorLogged := true }
  else if (load_data_to_collection env.dataset env.raiseAt).success then
    { exitCode := 0, connected := true, closeCount := 1, errorLogged := false }
  else
    { exitCode := 1, connected := true, closeCount := 1, errorLogged := true }

/-- C7: on every exit path of `main` on which a connection handle was
acquired — normal completion, data-loading failure, and any exception
raised after connect — the handle is closed exactly once. -/
theorem main_closes_handle_exactly_once (env : Env)
    (h : (main env).connected = true) : (main env).closeCount = 1 := by
  revert h
  unfold main
  split
  · intro h; simp at h
  · split
    · intro h; simp at h
    · split
      · intro _; rfl
      · split
        · intro _; rfl
        · intro _; rfl

/-- An environment in which every external operation succeeds. -/
def goodEnv : Env :=
  { probes := fun _ => ⟨0, true⟩, connectOk := true, createOk := true,
    dataset := some [emptyItem], raiseAt := none }

theorem wait_good_eval :
    wait_for_weaviate (fun _ => Probe.mk 0 true) 60 =
      { ready := true, returnTime := 0, attempts := 1 } := by
  unfold wait_for_weaviate
  rw [waitLoop.eq_def]
  norm_num

theorem main_closes_handle_exactly_once_witness :
    (main goodEnv).closeCount = 1 :=
  main_closes_handle_exactly_once goodEnv
    (by simp [main, goodEnv, wait_good_eval, load_data_to_collection])

/-- C8: the process exit code is 0 exactly when readiness, connection,
collection creation, and data loading all succeed; it is 1 in every other
case, and in every failure case a human-readable message is logged before
exiting. -/
theorem main_exit_code_iff_success (env : Env) :
    ((main env).exitCode = 0 ↔
      ((wait_for_weaviate env.probes 60).ready = true ∧
       env.connectOk = true ∧ env.createOk = true ∧
       (load_data_to_collection env.dataset env.raiseAt).success = true)) ∧
    ((main env).exitCode = 0 ∨ (main env).exitCode = 1) ∧
    ((main env).exitCode = 1 → (main env).errorLogged = true) := by
  unfold main
  split
  · rename_i h1
    exact ⟨by simp [h1], Or.inr rfl, fun _ => rfl⟩
  · rename_i h1
    rw [Bool.not_eq_false] at h1
    split
    · rename_i h2
      exact ⟨by simp [h2], Or.inr rfl, fun _ => rfl⟩
    · rename_i h2
      rw [Bool.not_eq_false] at h2
      split
      · rename_i h3
        exact ⟨by simp [h3], Or.inr rfl, fun _ => rfl⟩
      · rename_i h3
        rw [Bool.not_eq_false] at h3
        split
        · rename_i h4
          exact ⟨by simp [h1, h2, h3, h4], Or.inl rfl, fun hc => by simp at hc⟩
        · rename_i h4
          exact ⟨by simp [h4], Or.inr rfl, fun _ => rfl⟩

theorem main_exit_code_iff_success_witness :
    (main goodEnv).exitCode = 0 :=
  (main_exit_code_iff_success goodEnv).1.mpr
    ⟨by rw [goodEnv]; exact congrArg WaitResult.ready wait_good_eval,
     rfl, rfl, rfl⟩

/-! ### `suppress_subprocess_output` (`weaviate_server.py`, lines 7-29) -/

/-- The process-global `subprocess.Popen` binding: some original function
(identified abstractly), or the patch closure wrapping a saved original. -/
inductive PopenBinding where
  | base (id : Nat)
  | patchedOver (saved : PopenBinding)
deriving DecidableEq, Repr

/-- How the body of the `with` block finished: normal completion, or an
exception propagating out. -/
inductive BodyOutcome where
  | completed
  | raised
deriving DecidableEq, Repr

/-- `suppress_subprocess_output()` as a transformer of the global
`subprocess.Popen` binding. The saved `original_popen` is the binding at
entry; the body runs with the patched binding installed (and may itself
rebind `subprocess.Popen` and finish normally or raise); the `finally`
clause then rebinds `subprocess.Popen` to the saved original in both
cases. -/
def suppress_subprocess_output
    (body : PopenBinding → BodyOutcome × PopenBinding) (popen : PopenBinding) :
    BodyOutcome × PopenBinding :=
  let original_popen := popen
  let afterBody := body (PopenBinding.patchedOver original_popen)
  (afterBody.1, original_popen)

/-- C10: `suppress_subprocess_output` restores `subprocess.Popen` to the
original binding on every exit from the context — both when the body
completes normally and when it raises — so entering and leaving the context
leaves the global `subprocess.Popen` binding unchanged; the body itself
runs with the patched binding installed. -/
theorem suppress_subprocess_output_round_trip
    (body : PopenBinding → BodyOutcome × PopenBinding) (popen : PopenBinding) :
    (suppress_subprocess_output body popen).2 = popen ∧
    suppress_subprocess_output body popen =
      ((body (PopenBinding.patchedOver popen)).1, popen) :=
  ⟨rfl, rfl⟩

end BBCSetup
